import Mathlib

/-!
# Verification of the credora credential / normalization / sync core

Shallow embedding of the Python modules
`credora/normalization/currency.py`, `credora/normalization/models.py`,
`credora/normalization/normalizer.py`, `credora/services/data_sync.py` and
`credora/mcp_servers/fastmcp/token_manager.py`, with theorems settling the
spec claims about them.

Conventions of the embedding:
* Python `Decimal` values are modelled by the `Dec` type: an integer
  coefficient with a decimal scale, exactly Python's coefficient/exponent
  representation for the finite decimals these payloads contain.
  Multiplication and division by powers of ten are exact at these
  magnitudes (far below the 28-significant-digit context limit), and
  `quantize(..., ROUND_HALF_UP)` is modelled explicitly.
* Raw platform payloads (Python dicts) are modelled as structures whose
  fields are `Option` values: `none` models an absent key, `some v` a
  present key.  String/number heterogeneity of dict values is modelled by
  the `PyVal` type; Python truthiness of such values is modelled by
  `PyVal.truthy`.
* Fallible Python code (exceptions) is modelled with `Except String`.
* `uuid.uuid4()` draws and `datetime.now()` reads are modelled by explicit
  `uuid` / `now` parameters; distinctness of successive uuid draws is not
  needed by any claim proved here.
* `datetime.fromisoformat` / `datetime.strptime` results are modelled as
  constructors of `PyDateTime` applied to the (Z-replaced) input string;
  their rejection of malformed date strings is not modelled because no
  claim proved here depends on a timestamp parse failure.
-/

/-- A heterogeneous Python dict value: a string, an int, or `None`. -/
inductive PyVal where
  | vStr (s : String)
  | vInt (n : Int)
  | vNone
  deriving DecidableEq, Repr

namespace PyVal

/-- Python truthiness of a dict value: `""`, `0` and `None` are falsy. -/
def truthy : PyVal → Bool
  | vStr s => s ≠ ""
  | vInt n => n ≠ 0
  | vNone => false

/-- Python `str()` applied to a dict value. -/
def pyStr : PyVal → String
  | vStr s => s
  | vInt n => toString n
  | vNone => "None"

end PyVal

/-- Truthiness of `dict.get(k)`: an absent key yields `None`, which is falsy. -/
def pyTruthy : Option PyVal → Bool
  | none => false
  | some v => v.truthy

/-- Python `a or b` over optional dict values. -/
def pyOr (a b : Option PyVal) : Option PyVal :=
  if pyTruthy a then a else b

/-- `str()` of an optional dict value (`str(None) = "None"`). -/
def pyStrOf : Option PyVal → String
  | none => "None"
  | some v => v.pyStr

/-- Truthiness of an optional string value. -/
def strTruthy : Option String → Bool
  | none => false
  | some s => s ≠ ""

/-- Python `a or b` over optional string values. -/
def strOr (a b : Option String) : Option String :=
  if strTruthy a then a else b

/-- Equality of `Except` values is decidable componentwise. -/
instance {ε α : Type} [DecidableEq ε] [DecidableEq α] :
    DecidableEq (Except ε α) := fun a b =>
  match a, b with
  | .ok x, .ok y =>
    if h : x = y then .isTrue (by rw [h]) else .isFalse (fun he => h (Except.ok.inj he))
  | .error x, .error y =>
    if h : x = y then .isTrue (by rw [h]) else .isFalse (fun he => h (Except.error.inj he))
  | .ok _, .error _ => .isFalse (fun he => Except.noConfusion he)
  | .error _, .ok _ => .isFalse (fun he => Except.noConfusion he)

/-- Python `str.upper()` (the payloads here are ASCII). -/
def pyUpper (s : String) : String := ⟨s.data.map Char.toUpper⟩

/-- Python `str.lower()`. -/
def pyLower (s : String) : String := ⟨s.data.map Char.toLower⟩

/-- Python `str.strip()`: drop leading and trailing whitespace. -/
def pyStrip (s : String) : String :=
  ⟨((s.data.dropWhile Char.isWhitespace).reverse.dropWhile Char.isWhitespace).reverse⟩

/-- Python `s.replace("Z", "+00:00")`: replace every `Z` by `+00:00`. -/
def pyReplaceZ (s : String) : String :=
  ⟨s.data.foldr
    (fun c acc =>
      if c = 'Z' then '+' :: '0' :: '0' :: ':' :: '0' :: '0' :: acc else c :: acc)
    []⟩

/-- A Python `Decimal` value: integer coefficient `num` with decimal scale
`scale`, denoting `num / 10 ^ scale` (`Decimal("108.00")` is
`⟨10800, 2⟩`).  This is Python's own coefficient/exponent representation
for the non-positive-exponent finite decimals these payloads contain. -/
structure Dec where
  num : Int
  scale : Nat
  deriving DecidableEq, Repr

namespace Dec

/-- `Decimal` comparison with zero: the value is negative iff the
coefficient is. -/
def isNeg (d : Dec) : Bool := d.num < 0

/-- `abs(Decimal)`: same exponent, absolute coefficient. -/
def abs (d : Dec) : Dec := ⟨|d.num|, d.scale⟩

/-- `Decimal` multiplication: exact, coefficients multiply and scales add
(these payloads stay far below the 28-significant-digit context limit, so
no context rounding occurs). -/
def mul (a b : Dec) : Dec := ⟨a.num * b.num, a.scale + b.scale⟩

/-- Round `n / p` (`p > 0`) to an integer, half away from zero
(`ROUND_HALF_UP`). -/
def halfUpDiv (n p : Int) : Int :=
  if 0 ≤ n then (2 * n + p) / (2 * p) else -((2 * (-n) + p) / (2 * p))

/-- `Decimal.quantize(Decimal("0.00"), rounding=ROUND_HALF_UP)`: rescale
to exactly two decimal places, rounding half away from zero. -/
def quantize2 (d : Dec) : Dec :=
  if d.scale ≤ 2 then ⟨d.num * 10 ^ (2 - d.scale), 2⟩
  else ⟨halfUpDiv d.num (10 ^ (d.scale - 2)), 2⟩

/-- Strip trailing zero digits, but not below the ideal scale (fuel-driven
so that it computes by structural recursion). -/
def stripAux : Nat → Int → Nat → Nat → Dec
  | 0, n, s, _ => ⟨n, s⟩
  | fuel + 1, n, s, ideal =>
    if ideal < s && n % 10 == 0 then stripAux fuel (n / 10) (s - 1) ideal
    else ⟨n, s⟩

/-- `Decimal` division by `10 ^ k` (the only division the normalizers
perform, e.g. `/ Decimal("1000000")`).  The quotient is exact; following
Python's division rule the result drops trailing zeros down to the ideal
exponent (the dividend's exponent minus the divisor's, the latter 0). -/
def div10pow (d : Dec) (k : Nat) : Dec :=
  stripAux k d.num (d.scale + k) d.scale

end Dec

/-- Numeric value of a list of decimal digits. -/
def digitsVal (l : List Char) : Nat :=
  l.foldl (fun a c => a * 10 + (c.toNat - 48)) 0

/-- `Decimal(s)` for a string `s`: optional sign, then digits with an
optional fractional part; the scale is the number of fractional digits,
exactly as `Decimal` keeps it.  Exponent forms, underscores and special
values never occur in these payloads and are treated as malformed,
matching the `InvalidOperation` raised by `Decimal` on strings like
`"abc"`. -/
def parseDecimal (s : String) : Except String Dec :=
  let cs := s.data
  let signRest : Int × List Char :=
    match cs with
    | '-' :: r => (-1, r)
    | '+' :: r => (1, r)
    | r => (1, r)
  let sign := signRest.1
  let rest := signRest.2
  let intPart := rest.takeWhile Char.isDigit
  let rest2 := rest.dropWhile Char.isDigit
  match rest2 with
  | [] =>
    if intPart.isEmpty then
      .error ("InvalidOperation: " ++ s)
    else
      .ok ⟨sign * (digitsVal intPart : Int), 0⟩
  | '.' :: frac =>
    if frac.all Char.isDigit && !(intPart.isEmpty && frac.isEmpty) then
      .ok ⟨sign * ((digitsVal intPart * 10 ^ frac.length + digitsVal frac : Nat) : Int),
           frac.length⟩
    else
      .error ("InvalidOperation: " ++ s)
  | _ => .error ("InvalidOperation: " ++ s)

/-! ## Currency converter — `credora/normalization/currency.py` -/

/-- `DEFAULT_EXCHANGE_RATES`: currency code → rate to USD, each the exact
decimal of the source (`Decimal("1.0")`, `Decimal("1.08")`, ...). -/
def DEFAULT_EXCHANGE_RATES : List (String × Dec) :=
  [("USD", ⟨10, 1⟩),
   ("EUR", ⟨108, 2⟩),
   ("GBP", ⟨127, 2⟩),
   ("CAD", ⟨74, 2⟩),
   ("AUD", ⟨65, 2⟩),
   ("JPY", ⟨67, 4⟩),
   ("INR", ⟨12, 3⟩),
   ("CNY", ⟨14, 2⟩),
   ("BRL", ⟨20, 2⟩),
   ("MXN", ⟨58, 3⟩)]

/-- The payload of the `ValueError` raised by `convert_to_usd` for an
unregistered currency: the message names the currency and lists the
supported codes (the spec's taxonomy calls this error
`UnsupportedCurrencyError`). -/
structure UnsupportedCurrency where
  currency : String
  supported : List String
  deriving DecidableEq, Repr

/-- `CurrencyConverter.convert_to_usd` with the default `round_places=2`.
The converter's rate table `self._rates` is the `rates` parameter. -/
def convert_to_usd (rates : List (String × Dec)) (amount : Dec)
    (currency : String) : Except UnsupportedCurrency Dec :=
  let currency_upper := pyUpper currency
  if currency_upper = "USD" then
    .ok amount.quantize2
  else
    match rates.lookup currency_upper with
    | none => .error { currency := currency, supported := rates.map Prod.fst }
    | some rate => .ok (amount.mul rate).quantize2

/-! ## Transaction model — `credora/normalization/models.py` -/

/-- `TransactionType` enumeration. -/
inductive TransactionType where
  | order
  | refund
  | ad_spend
  | expense
  | payout
  | inventory_cost
  deriving DecidableEq, Repr

/-- The string value of a `TransactionType` member. -/
def TransactionType.value : TransactionType → String
  | .order => "order"
  | .refund => "refund"
  | .ad_spend => "ad_spend"
  | .expense => "expense"
  | .payout => "payout"
  | .inventory_cost => "inventory_cost"

/-- A timestamp as produced by the normalizers: a `fromisoformat` parse of
the (Z-replaced) string, a `strptime(s, "%Y-%m-%d")` parse, the wall clock
`datetime.now()` at tick `t`, or a non-string raw value used directly. -/
inductive PyDateTime where
  | iso (s : String)
  | ymd (s : String)
  | nowAt (t : Nat)
  | ofVal (v : PyVal)
  deriving DecidableEq, Repr

/-- `NormalizedTransaction` dataclass.  The free-form `metadata` dict is
not modelled: no claim depends on it. -/
structure NormalizedTransaction where
  id : String
  platform : String
  platform_id : String
  type : TransactionType
  amount : Dec
  currency : String
  timestamp : PyDateTime
  amount_usd : Option Dec := none
  sku_id : Option String := none
  quantity : Option Int := none
  cost_per_unit : Option Dec := none
  campaign_id : Option String := none
  customer_id : Option String := none
  deriving DecidableEq, Repr

/-- `NormalizedTransaction.__post_init__`: regenerate an empty id (the
fresh `uuid.uuid4()` draw is the `freshId` parameter), lower-case and strip
the platform name, and set `amount_usd := amount` when `amount_usd` is
unset and the currency is USD.  The `Decimal` re-coercions of the source
are identities here because amounts are already rationals. -/
def postInit (freshId : String) (tx : NormalizedTransaction) :
    NormalizedTransaction :=
  let id := if tx.id = "" then freshId else tx.id
  let platform := pyStrip (pyLower tx.platform)
  let amount_usd :=
    if tx.amount_usd.isNone && pyUpper tx.currency = "USD" then
      some tx.amount
    else
      tx.amount_usd
  { tx with id := id, platform := platform, amount_usd := amount_usd }

/-- `NormalizedTransaction.validate`.  In this embedding `id`, `platform`
and `currency` are the string-typed required fields (only strings can fail
the emptiness check); `type`, `amount` and `timestamp` are always present
by construction, as they are in the source after `__post_init__`. -/
def NormalizedTransaction.validate (tx : NormalizedTransaction) :
    Except String Bool :=
  if pyStrip tx.id = "" then
    .error "Required field 'id' is missing or empty"
  else if pyStrip tx.platform = "" then
    .error "Required field 'platform' is missing or empty"
  else if pyStrip tx.currency = "" then
    .error "Required field 'currency' is missing or empty"
  else if !(tx.platform = "shopify" || tx.platform = "meta" || tx.platform = "google") then
    .error ("Invalid platform: " ++ tx.platform)
  else if tx.type ≠ TransactionType.refund && tx.amount.isNeg then
    .error ("Amount must be non-negative for type " ++ tx.type.value)
  else
    .ok true

/-! ## Platform normalizers — `credora/normalization/normalizer.py` -/

/-- One entry of a Shopify order's `line_items` list.  The presence check
`"cost_per_item" in first_item` is modelled by `cost_per_item.isSome`. -/
structure LineItem where
  sku : Option PyVal := none
  product_id : Option PyVal := none
  quantity : Option Int := none
  cost_per_item : Option PyVal := none
  deriving DecidableEq, Repr

/-- A raw Shopify order/refund record.  `customer_id_raw` models the
nested access `data.get("customer", {}).get("id")`. -/
structure ShopifyRaw where
  id : Option PyVal := none
  total_price : Option PyVal := none
  amount : Option PyVal := none
  currency : Option String := none
  created_at : Option String := none
  processed_at : Option String := none
  financial_status : Option String := none
  kind : Option String := none
  line_items : List LineItem := []
  customer_id_raw : Option PyVal := none
  deriving DecidableEq, Repr

/-- The string fed to `Decimal` for a Shopify record:
`data.get("total_price") or data.get("amount") or "0"`. -/
def shopifyAmountStr (data : ShopifyRaw) : String :=
  pyStrOf (pyOr (pyOr data.total_price data.amount) (some (.vStr "0")))

/-- `financial_status == "refunded" or data.get("kind") == "refund"`
(with `data.get("financial_status", "paid")`). -/
def shopifyIsRefund (data : ShopifyRaw) : Bool :=
  data.financial_status.getD "paid" = "refunded" || data.kind = some "refund"

/-- The timestamp computed by `ShopifyNormalizer.normalize`:
`data.get("created_at") or data.get("processed_at")`, parsed with
`fromisoformat` after `Z → +00:00` replacement when it is a string,
else defaulted to `datetime.now()`. -/
def shopifyTimestamp (now : Nat) (data : ShopifyRaw) : PyDateTime :=
  match strOr data.created_at data.processed_at with
  | some s => .iso (pyReplaceZ s)
  | none => .nowAt now

/-- The refund sign normalization: `if is_refund and amount < 0: amount = abs(amount)`. -/
def shopifyAmountOf (data : ShopifyRaw) (amount0 : Dec) : Dec :=
  if shopifyIsRefund data && amount0.isNeg then amount0.abs else amount0

/-- The `NormalizedTransaction(...)` constructor call of
`ShopifyNormalizer.normalize`, before `__post_init__` runs.  SKU, quantity
and unit cost come from the first line item only. -/
def shopifyTxRecord (uuid : String) (now : Nat) (data : ShopifyRaw)
    (amount : Dec) (cost_per_unit : Option Dec) : NormalizedTransaction :=
  { id := uuid
    platform := "shopify"
    platform_id := (data.id.getD (.vStr "")).pyStr
    type := if shopifyIsRefund data then .refund else .order
    amount := amount
    currency := data.currency.getD "USD"
    timestamp := shopifyTimestamp now data
    sku_id := (data.line_items.head?.bind fun fi => pyOr fi.sku fi.product_id).map PyVal.pyStr
    quantity := data.line_items.head?.bind LineItem.quantity
    cost_per_unit := cost_per_unit
    customer_id :=
      if pyTruthy data.customer_id_raw then some (pyStrOf data.customer_id_raw) else none }

/-- `ShopifyNormalizer.normalize`.  `uuid` models the `uuid.uuid4()` draw
and `now` the wall clock.  The two `Decimal(str(...))` calls (order total
and first-line-item `cost_per_item`) are the operations that can raise. -/
def shopifyNormalize (uuid : String) (now : Nat) (data : ShopifyRaw) :
    Except String NormalizedTransaction :=
  match parseDecimal (shopifyAmountStr data) with
  | .error e => .error e
  | .ok amount0 =>
    match data.line_items.head?.bind LineItem.cost_per_item with
    | none =>
      .ok (postInit uuid (shopifyTxRecord uuid now data (shopifyAmountOf data amount0) none))
    | some v =>
      match parseDecimal v.pyStr with
      | .error e => .error e
      | .ok q =>
        .ok (postInit uuid
          (shopifyTxRecord uuid now data (shopifyAmountOf data amount0) (some q)))

/-- `Normalizer.normalize_batch` for the Shopify adapter: the list
comprehension `[self.normalize(record) for record in records]` evaluates
records left to right and lets the first exception propagate, aborting the
whole batch. -/
def shopifyNormalizeBatch (uuid : String) (now : Nat) :
    List ShopifyRaw → Except String (List NormalizedTransaction)
  | [] => .ok []
  | r :: rs =>
    match shopifyNormalize uuid now r with
    | .error e => .error e
    | .ok tx =>
      match shopifyNormalizeBatch uuid now rs with
      | .error e => .error e
      | .ok txs => .ok (tx :: txs)

/-- A raw Meta Ads campaign/spend record. -/
structure MetaRaw where
  id : Option PyVal := none
  spend : Option PyVal := none
  amount : Option PyVal := none
  currency : Option String := none
  date_start : Option String := none
  date : Option String := none
  created_time : Option String := none
  campaign_id : Option PyVal := none
  deriving DecidableEq, Repr

/-- Timestamp branch shared by the two ad normalizers: a string containing
`"T"` goes through `fromisoformat` after Z-replacement, any other string
through `strptime(s, "%Y-%m-%d")`, and a missing/falsy value defaults to
`datetime.now()`. -/
def adTimestamp (now : Nat) (date_str : Option String) : PyDateTime :=
  match date_str with
  | some s =>
    if s.data.contains 'T' then .iso (pyReplaceZ s) else .ymd s
  | none => .nowAt now

/-- The `Decimal`-input string for a Meta record:
`data.get("spend") or data.get("amount") or "0"`. -/
def metaSpendStr (data : MetaRaw) : String :=
  pyStrOf (pyOr (pyOr data.spend data.amount) (some (.vStr "0")))

/-- The `NormalizedTransaction(...)` constructor call of
`MetaNormalizer.normalize`, before `__post_init__` runs. -/
def metaTxRecord (uuid : String) (now : Nat) (data : MetaRaw) (amount : Dec) :
    NormalizedTransaction :=
  let campaign_raw := pyOr data.campaign_id data.id
  { id := uuid
    platform := "meta"
    platform_id := (data.id.getD (.vStr "")).pyStr
    type := TransactionType.ad_spend
    amount := amount
    currency := data.currency.getD "USD"
    timestamp := adTimestamp now (strOr (strOr data.date_start data.date) data.created_time)
    campaign_id := if pyTruthy campaign_raw then some (pyStrOf campaign_raw) else none }

/-- `MetaNormalizer.normalize`. -/
def metaNormalize (uuid : String) (now : Nat) (data : MetaRaw) :
    Except String NormalizedTransaction :=
  match parseDecimal (metaSpendStr data) with
  | .error e => .error e
  | .ok amount => .ok (postInit uuid (metaTxRecord uuid now data amount))

/-- A raw Google Ads campaign/spend record.  `segments_date` models
`data.get("segments", {}).get("date")` and `campaign_nested_id` models
`data.get("campaign", {}).get("id")`. -/
structure GoogleRaw where
  id : Option PyVal := none
  cost_micros : Option PyVal := none
  cost : Option PyVal := none
  currency_code : Option String := none
  date : Option String := none
  segments_date : Option String := none
  campaign_id : Option PyVal := none
  campaign_nested_id : Option PyVal := none
  deriving DecidableEq, Repr

/-- The `Decimal`-input string for a Google record:
`data.get("cost_micros") or data.get("cost") or "0"`. -/
def googleCostStr (data : GoogleRaw) : String :=
  pyStrOf (pyOr (pyOr data.cost_micros data.cost) (some (.vStr "0")))

/-- The micros branch of `GoogleNormalizer.normalize`: the scale is chosen
by key presence (`"cost_micros" in data`) while the scaled value came from
the truthiness-based `or` chain. -/
def googleAmountOf (data : GoogleRaw) (cost0 : Dec) : Dec :=
  if data.cost_micros.isSome then cost0.div10pow 6 else cost0

/-- The `NormalizedTransaction(...)` constructor call of
`GoogleNormalizer.normalize`, before `__post_init__` runs. -/
def googleTxRecord (uuid : String) (now : Nat) (data : GoogleRaw) (amount : Dec) :
    NormalizedTransaction :=
  let campaign_raw := pyOr data.campaign_id data.campaign_nested_id
  { id := uuid
    platform := "google"
    platform_id :=
      match data.id with
      | some v => v.pyStr
      | none => if pyTruthy campaign_raw then pyStrOf campaign_raw else ""
    type := TransactionType.ad_spend
    amount := amount
    currency := data.currency_code.getD "USD"
    timestamp := adTimestamp now (strOr data.date data.segments_date)
    campaign_id := if pyTruthy campaign_raw then some (pyStrOf campaign_raw) else none }

/-- `GoogleNormalizer.normalize`. -/
def googleNormalize (uuid : String) (now : Nat) (data : GoogleRaw) :
    Except String NormalizedTransaction :=
  match parseDecimal (googleCostStr data) with
  | .error e => .error e
  | .ok cost0 => .ok (postInit uuid (googleTxRecord uuid now data (googleAmountOf data cost0)))

/-! ## Token manager — `credora/mcp_servers/fastmcp/token_manager.py` -/

/-- `TokenData` dataclass.  `expires_at` is an absolute UTC time in
seconds (the source normalizes naive datetimes to UTC before comparing).
`scopes` and `metadata` are opaque and not modelled. -/
structure TokenData where
  access_token : String
  refresh_token : Option String := none
  expires_at : Option Int := none
  platform_user_id : Option String := none
  deriving DecidableEq, Repr

/-- `TokenData.is_expired`: a token with no `expires_at` never expires;
otherwise it counts as expired from `buffer_seconds` before its literal
expiry, compared against the current UTC time `now`. -/
def TokenData.is_expired (t : TokenData) (now : Int)
    (buffer_seconds : Int := 300) : Bool :=
  match t.expires_at with
  | none => false
  | some e => decide (e - buffer_seconds ≤ now)

/-- Upsert into an association list keyed by `k`. -/
def listUpsert {α β : Type} [DecidableEq α] (k : α) (v : β) :
    List (α × β) → List (α × β)
  | [] => [(k, v)]
  | (k', v') :: rest =>
    if k' = k then (k, v) :: rest else (k', v') :: listUpsert k v rest

/-- The durable side of the token store: the `users` table
(`external_id → uuid`) and the `tokens` table keyed `(user uuid, platform)`
with its `ON CONFLICT (user_id, platform) DO UPDATE` upsert. -/
structure DbState where
  users : List (String × String)
  tokens : List ((String × String) × TokenData)
  deriving DecidableEq, Repr

/-- `TokenManager` state: the in-memory cache keyed `(user_id, platform)`
and the database connection (`none` models an unavailable database). -/
structure TMState where
  cache : List ((String × String) × TokenData)
  db : Option DbState
  deriving DecidableEq, Repr

/-- `TokenManager.store_token`: always updates the cache; upserts into the
`tokens` table when the database is reachable and the user row exists
(otherwise the token stays cached in memory only). -/
def store_token (st : TMState) (user_id platform : String)
    (token_data : TokenData) : TMState :=
  let cache := listUpsert (user_id, platform) token_data st.cache
  match st.db with
  | none => { st with cache := cache }
  | some db =>
    match db.users.lookup user_id with
    | none => { st with cache := cache }
    | some uuid =>
      { cache := cache
        db := some { db with tokens := listUpsert (uuid, platform) token_data db.tokens } }

/-- `TokenManager.get_token`.  `refresher` models the platform-specific
`_refresh_token` call: `.error e` a raised exception, `.ok none` a refresh
that yields no new credential, `.ok (some td)` a successful refresh.
Returns the credential handed to the caller together with the new state.
The outer `except` of the source (database errors falling back to the
cache) cannot fire here because the modelled lookups are total. -/
def get_token (now : Int) (refresher : Except String (Option TokenData))
    (st : TMState) (user_id platform : String) (auto_refresh : Bool := true) :
    Option TokenData × TMState :=
  let fromDb : Option TokenData × TMState :=
    match st.db with
    | none => (st.cache.lookup (user_id, platform), st)
    | some db =>
      match db.users.lookup user_id with
      | none => (none, st)
      | some uuid =>
        match db.tokens.lookup (uuid, platform) with
        | none => (none, st)
        | some row =>
          let st1 : TMState :=
            { st with cache := listUpsert (user_id, platform) row st.cache }
          if auto_refresh && row.is_expired now && strTruthy row.refresh_token then
            match refresher with
            | .ok (some refreshed) =>
              (some refreshed, store_token st1 user_id platform refreshed)
            | .ok none => (some row, st1)
            | .error _ => (some row, st1)
          else
            (some row, st1)
  match st.cache.lookup (user_id, platform) with
  | some td => if !(td.is_expired now) then (some td, st) else fromDb
  | none => fromDb

/-! ## Sync orchestrator — `credora/services/data_sync.py` -/

/-- A raw product record; only its `id` is observable in the orchestrator
(the upsert itself is an external collaborator behaviour). -/
structure ProductRaw where
  id : Option PyVal := none
  deriving DecidableEq, Repr

/-- A raw Meta ad-account record: `account.get("id", account.get("account_id", ""))`. -/
structure AdAccount where
  id : Option PyVal := none
  account_id : Option PyVal := none
  deriving DecidableEq, Repr

/-- A raw Google customer record: `customer.get("id", customer.get("customer_id", ""))`. -/
structure GoogleCustomer where
  id : Option PyVal := none
  customer_id : Option PyVal := none
  deriving DecidableEq, Repr

/-- `account.get("id", account.get("account_id", ""))`. -/
def AdAccount.idVal (a : AdAccount) : PyVal :=
  a.id.getD (a.account_id.getD (.vStr ""))

/-- `customer.get("id", customer.get("customer_id", ""))`. -/
def GoogleCustomer.idVal (a : GoogleCustomer) : PyVal :=
  a.id.getD (a.customer_id.getD (.vStr ""))

/-- The external collaborators of one `sync_platform` run, plus the
nondeterminism parameters.  `ensureUser` is `_ensure_user_uuid` (its
exceptions propagate out of the per-platform helper into `sync_platform`'s
catch-all); the fetches are the MCP-router calls; the product/campaign
upserts are database behaviours. -/
structure Collab where
  ensureUser : Except String String
  fetchOrders : Except String (List ShopifyRaw)
  fetchProducts : Except String (List ProductRaw)
  upsertProduct : ProductRaw → Except String Unit
  fetchMetaAdAccounts : Except String (List AdAccount)
  fetchMetaCampaigns : PyVal → Except String (List MetaRaw)
  upsertMetaCampaign : MetaRaw → Except String Unit
  fetchGoogleCustomers : Except String (List GoogleCustomer)
  fetchGoogleCampaigns : PyVal → Except String (List GoogleRaw)
  upsertGoogleCampaign : GoogleRaw → Except String Unit
  uuid : String
  now : Nat

/-- `DataSyncService._insert_transaction`: the SQL argument list evaluates
`transaction.occurred_at`, but `NormalizedTransaction` has no attribute
`occurred_at` (its field is named `timestamp`), so the call raises
`AttributeError` before reaching the database — for every transaction. -/
def insertTransaction (_tx : NormalizedTransaction) : Except String Unit :=
  .error "'NormalizedTransaction' object has no attribute 'occurred_at'"

/-- The per-platform sync summary dict. -/
structure SyncReport where
  platform : String
  transactions_synced : Nat
  products_synced : Nat
  campaigns_synced : Nat
  errors : List String
  deriving DecidableEq, Repr

/-- An empty sync report for a platform: the fixed result shape
initialized at the top of each sync helper. -/
def emptyReport (p : String) : SyncReport := ⟨p, 0, 0, 0, []⟩

/-- The error label for an order: `order_data.get('id', 'unknown')`. -/
def orderLabel (od : ShopifyRaw) : String :=
  (od.id.getD (.vStr "unknown")).pyStr

/-- The error label for a product record. -/
def productLabel (pd : ProductRaw) : String :=
  (pd.id.getD (.vStr "unknown")).pyStr

/-- The error label for a Meta campaign record. -/
def metaCampaignLabel (cd : MetaRaw) : String :=
  (cd.id.getD (.vStr "unknown")).pyStr

/-- The error label for a Google campaign record. -/
def googleCampaignLabel (cd : GoogleRaw) : String :=
  (cd.id.getD (.vStr "unknown")).pyStr

/-- The per-order body of `_sync_shopify`'s order loop: normalize, then
insert into the transaction store. -/
def shopifyOrderStep (c : Collab) (od : ShopifyRaw) : Except String Unit :=
  match shopifyNormalize c.uuid c.now od with
  | .error e => .error e
  | .ok tx => insertTransaction tx

/-- The body of `_sync_shopify`'s order loop as a fold step: count the
order on success, append `"Order {id}: {e}"` on failure. -/
def shopifyOrderFoldStep (c : Collab) (acc : SyncReport) (od : ShopifyRaw) :
    SyncReport :=
  match shopifyOrderStep c od with
  | .ok _ => { acc with transactions_synced := acc.transactions_synced + 1 }
  | .error e =>
    { acc with errors := acc.errors ++ ["Order " ++ orderLabel od ++ ": " ++ e] }

/-- The body of `_sync_shopify`'s product loop as a fold step. -/
def productFoldStep (c : Collab) (acc : SyncReport) (pd : ProductRaw) :
    SyncReport :=
  match c.upsertProduct pd with
  | .ok _ => { acc with products_synced := acc.products_synced + 1 }
  | .error e =>
    { acc with errors := acc.errors ++ ["Product " ++ productLabel pd ++ ": " ++ e] }

/-- `DataSyncService._sync_shopify`.  A failure of `_ensure_user_uuid`
propagates out (`.error`); fetch failures and per-record failures are
captured in the report. -/
def syncShopify (c : Collab) : Except String SyncReport :=
  match c.ensureUser with
  | .error e => .error e
  | .ok _ =>
    let r0 := emptyReport "shopify"
    let r1 :=
      match c.fetchOrders with
      | .error e => { r0 with errors := r0.errors ++ ["Failed to fetch orders: " ++ e] }
      | .ok orders => orders.foldl (shopifyOrderFoldStep c) r0
    let r2 :=
      match c.fetchProducts with
      | .error e => { r1 with errors := r1.errors ++ ["Failed to fetch products: " ++ e] }
      | .ok products => products.foldl (productFoldStep c) r1
    .ok r2

/-- The per-campaign body of `_sync_meta`'s loop: upsert the campaign
(counted on success), then normalize the spend and insert it as a
transaction; any exception in the body lands in the error list. -/
def metaCampaignStep (c : Collab) (acc : SyncReport) (cd : MetaRaw) : SyncReport :=
  match c.upsertMetaCampaign cd with
  | .error e =>
    { acc with errors := acc.errors ++ ["Campaign " ++ metaCampaignLabel cd ++ ": " ++ e] }
  | .ok _ =>
    let acc1 := { acc with campaigns_synced := acc.campaigns_synced + 1 }
    match (metaNormalize c.uuid c.now cd).bind insertTransaction with
    | .ok _ => { acc1 with transactions_synced := acc1.transactions_synced + 1 }
    | .error e =>
      { acc1 with errors := acc1.errors ++ ["Campaign " ++ metaCampaignLabel cd ++ ": " ++ e] }

/-- The body of `_sync_meta`'s account loop as a fold step: fetch the
account's campaigns (appending `"Account {id}: {e}"` on failure) and fold
the campaign step over them. -/
def metaAccountFoldStep (c : Collab) (acc : SyncReport) (a : AdAccount) :
    SyncReport :=
  match c.fetchMetaCampaigns a.idVal with
  | .error e =>
    { acc with errors := acc.errors ++ ["Account " ++ a.idVal.pyStr ++ ": " ++ e] }
  | .ok camps => camps.foldl (metaCampaignStep c) acc

/-- `DataSyncService._sync_meta`. -/
def syncMeta (c : Collab) : Except String SyncReport :=
  match c.ensureUser with
  | .error e => .error e
  | .ok _ =>
    let r0 := emptyReport "meta"
    let r1 :=
      match c.fetchMetaAdAccounts with
      | .error e => { r0 with errors := r0.errors ++ ["Failed to fetch ad accounts: " ++ e] }
      | .ok accounts => accounts.foldl (metaAccountFoldStep c) r0
    .ok r1

/-- The per-campaign body of `_sync_google`'s loop. -/
def googleCampaignStep (c : Collab) (acc : SyncReport) (cd : GoogleRaw) : SyncReport :=
  match c.upsertGoogleCampaign cd with
  | .error e =>
    { acc with errors := acc.errors ++ ["Campaign " ++ googleCampaignLabel cd ++ ": " ++ e] }
  | .ok _ =>
    let acc1 := { acc with campaigns_synced := acc.campaigns_synced + 1 }
    match (googleNormalize c.uuid c.now cd).bind insertTransaction with
    | .ok _ => { acc1 with transactions_synced := acc1.transactions_synced + 1 }
    | .error e =>
      { acc1 with errors := acc1.errors ++ ["Campaign " ++ googleCampaignLabel cd ++ ": " ++ e] }

/-- The body of `_sync_google`'s customer loop as a fold step. -/
def googleCustomerFoldStep (c : Collab) (acc : SyncReport) (a : GoogleCustomer) :
    SyncReport :=
  match c.fetchGoogleCampaigns a.idVal with
  | .error e =>
    { acc with errors := acc.errors ++ ["Customer " ++ a.idVal.pyStr ++ ": " ++ e] }
  | .ok camps => camps.foldl (googleCampaignStep c) acc

/-- `DataSyncService._sync_google`. -/
def syncGoogle (c : Collab) : Except String SyncReport :=
  match c.ensureUser with
  | .error e => .error e
  | .ok _ =>
    let r0 := emptyReport "google"
    let r1 :=
      match c.fetchGoogleCustomers with
      | .error e => { r0 with errors := r0.errors ++ ["Failed to fetch customers: " ++ e] }
      | .ok customers => customers.foldl (googleCustomerFoldStep c) r0
    .ok r1

/-- `DataSyncService.sync_platform`: lower-cases the platform, dispatches
to the per-platform helper inside a catch-all `try`, and always returns a
report — an exception from the helper is appended as an error string to
the initial zero-count report. -/
def syncPlatform (c : Collab) (platform : String) : SyncReport :=
  let p := pyLower platform
  let base := emptyReport p
  let res : Except String SyncReport :=
    if p = "shopify" then syncShopify c
    else if p = "meta" then syncMeta c
    else if p = "google" then syncGoogle c
    else .ok { base with errors := ["Unsupported platform: " ++ p] }
  match res with
  | .ok r => r
  | .error e => { base with errors := [e] }

/-! ## Helper lemmas -/

theorem postInit_currency (u : String) (tx : NormalizedTransaction) :
    (postInit u tx).currency = tx.currency := rfl

theorem postInit_amount (u : String) (tx : NormalizedTransaction) :
    (postInit u tx).amount = tx.amount := rfl

theorem postInit_type (u : String) (tx : NormalizedTransaction) :
    (postInit u tx).type = tx.type := rfl

theorem postInit_timestamp (u : String) (tx : NormalizedTransaction) :
    (postInit u tx).timestamp = tx.timestamp := rfl

theorem postInit_amount_usd_of_none (u : String) (tx : NormalizedTransaction)
    (h : tx.amount_usd = none) :
    (postInit u tx).amount_usd =
      if pyUpper tx.currency = "USD" then some tx.amount else none := by
  simp [postInit, h]

theorem shopifyTxRecord_amount (u : String) (n : Nat) (d : ShopifyRaw)
    (a : Dec) (c : Option Dec) : (shopifyTxRecord u n d a c).amount = a := rfl

theorem shopifyTxRecord_currency (u : String) (n : Nat) (d : ShopifyRaw)
    (a : Dec) (c : Option Dec) :
    (shopifyTxRecord u n d a c).currency = d.currency.getD "USD" := rfl

theorem shopifyTxRecord_timestamp (u : String) (n : Nat) (d : ShopifyRaw)
    (a : Dec) (c : Option Dec) :
    (shopifyTxRecord u n d a c).timestamp = shopifyTimestamp n d := rfl

theorem metaTxRecord_amount (u : String) (n : Nat) (d : MetaRaw) (a : Dec) :
    (metaTxRecord u n d a).amount = a := rfl

theorem googleTxRecord_amount (u : String) (n : Nat) (d : GoogleRaw) (a : Dec) :
    (googleTxRecord u n d a).amount = a := rfl

theorem shopifyNormalize_ok {uuid : String} {now : Nat} {data : ShopifyRaw}
    {tx : NormalizedTransaction} (h : shopifyNormalize uuid now data = .ok tx) :
    ∃ amount0 cpu, parseDecimal (shopifyAmountStr data) = .ok amount0 ∧
      tx = postInit uuid
        (shopifyTxRecord uuid now data (shopifyAmountOf data amount0) cpu) := by
  unfold shopifyNormalize at h
  cases hp : parseDecimal (shopifyAmountStr data) with
  | error e => rw [hp] at h; exact absurd h (by simp)
  | ok a =>
    rw [hp] at h
    cases hc : data.line_items.head?.bind LineItem.cost_per_item with
    | none =>
      rw [hc] at h
      simp only [Except.ok.injEq] at h
      exact ⟨a, none, rfl, h.symm⟩
    | some v =>
      rw [hc] at h
      dsimp only at h
      cases hpv : parseDecimal v.pyStr with
      | error e => rw [hpv] at h; exact absurd h (by simp)
      | ok q =>
        rw [hpv] at h
        simp only [Except.ok.injEq] at h
        exact ⟨a, some q, rfl, h.symm⟩

theorem metaNormalize_ok {uuid : String} {now : Nat} {data : MetaRaw}
    {tx : NormalizedTransaction} (h : metaNormalize uuid now data = .ok tx) :
    ∃ amount, parseDecimal (metaSpendStr data) = .ok amount ∧
      tx = postInit uuid (metaTxRecord uuid now data amount) := by
  unfold metaNormalize at h
  cases hp : parseDecimal (metaSpendStr data) with
  | error e => rw [hp] at h; exact absurd h (by simp)
  | ok a =>
    rw [hp] at h
    simp only [Except.ok.injEq] at h
    exact ⟨a, rfl, h.symm⟩

theorem googleNormalize_ok {uuid : String} {now : Nat} {data : GoogleRaw}
    {tx : NormalizedTransaction} (h : googleNormalize uuid now data = .ok tx) :
    ∃ cost0, parseDecimal (googleCostStr data) = .ok cost0 ∧
      tx = postInit uuid (googleTxRecord uuid now data (googleAmountOf data cost0)) := by
  unfold googleNormalize at h
  cases hp : parseDecimal (googleCostStr data) with
  | error e => rw [hp] at h; exact absurd h (by simp)
  | ok a =>
    rw [hp] at h
    simp only [Except.ok.injEq] at h
    exact ⟨a, rfl, h.symm⟩

/-! ## Claim theorems -/

/-- C4: `convert_to_usd` is deterministic and exact: converting
`Decimal("100.00")` of EUR at the default rate `1.08` yields exactly
`Decimal("108.00")`; for every supported non-USD currency the result is
`amount * rate` rounded half-up to 2 decimal places; USD input is returned
rounded half-up to 2 places; and every currency code absent from the rate
table fails with the unsupported-currency error naming the currency and
listing the supported codes.  Determinism and bit-identical repetition are
inherent to the embedding: `convert_to_usd` is a pure function of the rate
table and its arguments. -/
theorem c4_convert_to_usd_exact :
    (convert_to_usd DEFAULT_EXCHANGE_RATES ⟨10000, 2⟩ "EUR" = .ok ⟨10800, 2⟩) ∧
    (∀ (rates : List (String × Dec)) (amount : Dec) (currency : String) (rate : Dec),
      pyUpper currency ≠ "USD" →
      rates.lookup (pyUpper currency) = some rate →
      convert_to_usd rates amount currency = .ok (amount.mul rate).quantize2) ∧
    (∀ (rates : List (String × Dec)) (amount : Dec) (currency : String),
      pyUpper currency = "USD" →
      convert_to_usd rates amount currency = .ok amount.quantize2) ∧
    (∀ (rates : List (String × Dec)) (amount : Dec) (currency : String),
      pyUpper currency ≠ "USD" →
      rates.lookup (pyUpper currency) = none →
      convert_to_usd rates amount currency =
        .error ⟨currency, rates.map Prod.fst⟩) := by
  refine ⟨by decide, ?_, ?_, ?_⟩
  · intro rates amount currency rate hne hl
    unfold convert_to_usd
    simp [hne, hl]
  · intro rates amount currency he
    unfold convert_to_usd
    simp [he]
  · intro rates amount currency hne hl
    unfold convert_to_usd
    simp [hne, hl]

/-- Witness for C4: instantiates the general conjuncts at GBP (supported,
rate 1.27, lower-case input code) and at the unregistered code `"XYZ"`. -/
theorem c4_convert_to_usd_exact_witness :
    (convert_to_usd DEFAULT_EXCHANGE_RATES ⟨10000, 2⟩ "gbp" = .ok ⟨12700, 2⟩) ∧
    (convert_to_usd DEFAULT_EXCHANGE_RATES ⟨5, 0⟩ "XYZ" =
      .error ⟨"XYZ", ["USD", "EUR", "GBP", "CAD", "AUD", "JPY", "INR", "CNY", "BRL", "MXN"]⟩) := by
  constructor
  · have h := c4_convert_to_usd_exact.2.1 DEFAULT_EXCHANGE_RATES ⟨10000, 2⟩ "gbp" ⟨127, 2⟩
      (by decide) (by decide)
    rw [h]; decide
  · have h := c4_convert_to_usd_exact.2.2.2 DEFAULT_EXCHANGE_RATES ⟨5, 0⟩ "XYZ"
      (by decide) (by decide)
    rw [h]; decide

/-- C6: the expiry check uses a safety buffer: with the default 300-second
buffer a credential expiring 60 seconds from now is already expired, one
expiring 3600 seconds from now is not, and a credential with no
`expires_at` never expires (for any buffer). -/
theorem c6_expiry_buffer :
    (∀ (now : Int) (t : TokenData), t.expires_at = some (now + 60) →
      t.is_expired now = true) ∧
    (∀ (now : Int) (t : TokenData), t.expires_at = some (now + 3600) →
      t.is_expired now = false) ∧
    (∀ (now buffer : Int) (t : TokenData), t.expires_at = none →
      t.is_expired now buffer = false) := by
  refine ⟨?_, ?_, ?_⟩
  · intro now t h
    simp only [TokenData.is_expired, h, decide_eq_true_eq]
    omega
  · intro now t h
    simp only [TokenData.is_expired, h, decide_eq_false_iff_not]
    omega
  · intro now buffer t h
    simp only [TokenData.is_expired, h]

/-- Witness for C6 at `now = 1000`. -/
theorem c6_expiry_buffer_witness :
    (TokenData.is_expired ⟨"a", none, some 1060, none⟩ 1000 = true) ∧
    (TokenData.is_expired ⟨"a", none, some 4600, none⟩ 1000 = false) ∧
    (TokenData.is_expired ⟨"a", none, none, none⟩ 1000 7 = false) := by
  refine ⟨?_, ?_, ?_⟩
  · exact c6_expiry_buffer.1 1000 ⟨"a", none, some 1060, none⟩ rfl
  · exact c6_expiry_buffer.2.1 1000 ⟨"a", none, some 4600, none⟩ rfl
  · exact c6_expiry_buffer.2.2 1000 7 ⟨"a", none, none, none⟩ rfl

/-- A well-formed Shopify order priced in EUR. -/
def eurOrder : ShopifyRaw :=
  { id := some (.vStr "ord_eur")
    total_price := some (.vStr "100.00")
    currency := some "EUR"
    created_at := some "2024-01-15T10:30:00Z" }

/-- What `ShopifyNormalizer.normalize` returns for `eurOrder`: a
transaction whose `amount_usd` is `None`. -/
def eurTx : NormalizedTransaction :=
  { id := "u-1"
    platform := "shopify"
    platform_id := "ord_eur"
    type := .order
    amount := ⟨10000, 2⟩
    currency := "EUR"
    timestamp := .iso "2024-01-15T10:30:00+00:00"
    amount_usd := none }

/-- C1 counterexample: normalizing a EUR-priced Shopify order succeeds —
no error is raised, the currency converter is never consulted — and the
resulting transaction's `amount_usd` is `None`, contradicting the claim
that every adapter either populates `amount_usd` or fails loudly. -/
theorem c1_counterexample :
    shopifyNormalize "u-1" 7 eurOrder = .ok eurTx ∧
    eurTx.currency = "EUR" ∧ eurTx.amount_usd = none := by decide

/-- C1 as amended: the adapters never invoke the currency converter;
`amount_usd` is populated only by the USD passthrough of
`NormalizedTransaction.__post_init__` — it equals `amount` when the
record's currency upper-cases to `"USD"` and is left `None` otherwise,
without any error, for all three adapters. -/
theorem c1_amended_usd_passthrough_only :
    (∀ (uuid : String) (now : Nat) (data : ShopifyRaw) (tx : NormalizedTransaction),
      shopifyNormalize uuid now data = .ok tx →
      tx.amount_usd = if pyUpper tx.currency = "USD" then some tx.amount else none) ∧
    (∀ (uuid : String) (now : Nat) (data : MetaRaw) (tx : NormalizedTransaction),
      metaNormalize uuid now data = .ok tx →
      tx.amount_usd = if pyUpper tx.currency = "USD" then some tx.amount else none) ∧
    (∀ (uuid : String) (now : Nat) (data : GoogleRaw) (tx : NormalizedTransaction),
      googleNormalize uuid now data = .ok tx →
      tx.amount_usd = if pyUpper tx.currency = "USD" then some tx.amount else none) := by
  refine ⟨?_, ?_, ?_⟩
  · intro uuid now data tx h
    obtain ⟨a, cpu, hp, rfl⟩ := shopifyNormalize_ok h
    rw [postInit_currency, postInit_amount, postInit_amount_usd_of_none _ _ rfl]
  · intro uuid now data tx h
    obtain ⟨a, hp, rfl⟩ := metaNormalize_ok h
    rw [postInit_currency, postInit_amount, postInit_amount_usd_of_none _ _ rfl]
  · intro uuid now data tx h
    obtain ⟨a, hp, rfl⟩ := googleNormalize_ok h
    rw [postInit_currency, postInit_amount, postInit_amount_usd_of_none _ _ rfl]

/-- Witness for the amended C1 at the concrete EUR order. -/
theorem c1_amended_usd_passthrough_only_witness :
    shopifyNormalize "u-1" 7 eurOrder = .ok eurTx ∧
    eurTx.amount_usd = if pyUpper eurTx.currency = "USD" then some eurTx.amount else none :=
  ⟨by decide,
   c1_amended_usd_passthrough_only.1 "u-1" 7 eurOrder eurTx (by decide)⟩

/-- A `Dec` with a non-negative coefficient is its own absolute value. -/
theorem Dec.abs_of_not_isNeg (d : Dec) (h : d.isNeg = false) : d.abs = d := by
  cases d with
  | mk n s =>
    simp only [Dec.isNeg, decide_eq_false_iff_not, not_lt] at h
    simp [Dec.abs, abs_of_nonneg h]

/-- The absolute value of a `Dec` is never negative. -/
theorem Dec.abs_not_isNeg (d : Dec) : d.abs.isNeg = false := by
  simp [Dec.isNeg, Dec.abs, not_lt, abs_nonneg]

/-- A Shopify transaction record whose refund-ness comes from the `kind`
field, not from `financial_status` (which is absent). -/
def kindRefund : ShopifyRaw :=
  { id := some (.vStr "txn_9")
    total_price := some (.vStr "5.00")
    kind := some "refund" }

/-- C9 counterexample: a commerce record whose financial-status field does
NOT indicate a refund (it is absent, defaulting to `"paid"`) still
normalizes to `type = refund`, because the adapter also branches on
`kind == "refund"`; the claim's "every other commerce record produces
type = order" fails here. -/
theorem c9_counterexample :
    kindRefund.financial_status = none ∧
    (shopifyNormalize "u-1" 0 kindRefund).toOption.map (fun tx => tx.type) =
      some .refund := by decide

/-- C9 as amended: the transaction type is `refund` exactly when
`financial_status == "refunded"` OR the record's `kind` field equals
`"refund"`; refund amounts are the non-negative absolute value of the
parsed order total; every record matching neither condition yields
`type = order`. -/
theorem c9_amended_refund_normalization :
    ∀ (uuid : String) (now : Nat) (data : ShopifyRaw) (q : Dec)
      (tx : NormalizedTransaction),
      parseDecimal (shopifyAmountStr data) = .ok q →
      shopifyNormalize uuid now data = .ok tx →
      (shopifyIsRefund data = true →
        tx.type = .refund ∧ tx.amount = q.abs ∧ tx.amount.isNeg = false) ∧
      (shopifyIsRefund data = false → tx.type = .order) := by
  intro uuid now data q tx hq h
  obtain ⟨a, cpu, hp, rfl⟩ := shopifyNormalize_ok h
  rw [hq] at hp
  obtain rfl : q = a := Except.ok.inj hp
  rw [postInit_type, postInit_amount]
  constructor
  · intro hr
    refine ⟨by simp [shopifyTxRecord, hr], ?_, ?_⟩
    · show shopifyAmountOf data q = q.abs
      unfold shopifyAmountOf
      rw [hr]
      cases hn : q.isNeg with
      | true => simp
      | false => simp [Dec.abs_of_not_isNeg q hn]
    · show (shopifyAmountOf data q).isNeg = false
      unfold shopifyAmountOf
      rw [hr]
      cases hn : q.isNeg with
      | true => simpa using Dec.abs_not_isNeg q
      | false => simpa using hn
  · intro hr
    simp [shopifyTxRecord, hr]

/-- A refunded commerce record with a negative total. -/
def refundedNeg : ShopifyRaw :=
  { id := some (.vStr "r1")
    total_price := some (.vStr "-10.00")
    financial_status := some "refunded" }

/-- What `ShopifyNormalizer.normalize` returns for `refundedNeg`. -/
def refundedNegTx : NormalizedTransaction :=
  { id := "u-1"
    platform := "shopify"
    platform_id := "r1"
    type := .refund
    amount := ⟨1000, 2⟩
    currency := "USD"
    timestamp := .nowAt 3
    amount_usd := some ⟨1000, 2⟩ }

/-- Witness for the amended C9: a refunded record with total `-10.00`
normalizes to a refund of non-negative magnitude `10.00`. -/
theorem c9_amended_refund_normalization_witness :
    shopifyIsRefund refundedNeg = true ∧
    refundedNegTx.type = .refund ∧ refundedNegTx.amount = (⟨-1000, 2⟩ : Dec).abs ∧
    refundedNegTx.amount.isNeg = false :=
  ⟨by decide,
   (c9_amended_refund_normalization "u-1" 3 refundedNeg ⟨-1000, 2⟩ refundedNegTx
     (by decide) (by decide)).1 (by decide)⟩

/-- A Google record carrying `cost_micros = 0` (present but falsy) next to
a `cost` field. -/
def gBug : GoogleRaw :=
  { cost_micros := some (.vInt 0)
    cost := some (.vStr "3000000")
    campaign_id := some (.vStr "c1") }

/-- C8 counterexample: with `cost_micros` present but falsy (`0`) and a
`cost` field also present, the truthiness-based `or` chain picks up the
`cost` value while the presence-based branch still applies the micros
scale: the amount becomes `3000000 / 1,000,000 = 3`, not
`cost_micros / 1,000,000 = 0` as the claim requires for every record with
`cost_micros` present. -/
theorem c8_counterexample :
    gBug.cost_micros = some (.vInt 0) ∧
    (googleNormalize "u-1" 0 gBug).toOption.map (fun tx => tx.amount) =
      some ⟨3, 0⟩ ∧
    (⟨0, 0⟩ : Dec).div10pow 6 ≠ (⟨3, 0⟩ : Dec) := by decide

/-- C8 as amended: when `cost_micros` is present with a truthy value, the
amount is that value divided by 1,000,000 exactly; when `cost_micros` is
absent and only `cost` is present, the amount is the `cost` value
unscaled.  (When `cost_micros` is present but falsy, the fallback value is
still divided by 1,000,000 — the counterexample.) -/
theorem c8_amended_micros_scaling :
    (∀ (uuid : String) (now : Nat) (data : GoogleRaw) (v : PyVal) (q : Dec),
      data.cost_micros = some v → v.truthy = true →
      parseDecimal v.pyStr = .ok q →
      (googleNormalize uuid now data).toOption.map (fun tx => tx.amount) =
        some (q.div10pow 6)) ∧
    (∀ (uuid : String) (now : Nat) (data : GoogleRaw) (v : PyVal) (q : Dec),
      data.cost_micros = none → data.cost = some v →
      parseDecimal v.pyStr = .ok q →
      (googleNormalize uuid now data).toOption.map (fun tx => tx.amount) =
        some q) := by
  constructor
  · intro uuid now data v q hm ht hq
    have hcs : googleCostStr data = v.pyStr := by
      simp [googleCostStr, hm, pyOr, pyTruthy, ht, pyStrOf]
    unfold googleNormalize
    rw [hcs, hq]
    simp [Except.toOption, postInit_amount, googleAmountOf, googleTxRecord_amount, hm]
  · intro uuid now data v q hm hc hq
    cases htv : v.truthy with
    | true =>
      have hcs : googleCostStr data = v.pyStr := by
        simp [googleCostStr, hm, hc, pyOr, pyTruthy, htv, pyStrOf]
      unfold googleNormalize
      rw [hcs, hq]
      simp [Except.toOption, postInit_amount, googleAmountOf, googleTxRecord_amount, hm]
    | false =>
      cases v with
      | vStr s =>
        have hs : s = "" := by
          simpa [PyVal.truthy] using htv
        subst hs
        have hperr : parseDecimal (PyVal.vStr "").pyStr = .error "InvalidOperation: " := by
          decide
        rw [hperr] at hq
        exact Except.noConfusion hq
      | vNone =>
        have hperr : parseDecimal PyVal.vNone.pyStr = .error "InvalidOperation: None" := by
          decide
        rw [hperr] at hq
        exact Except.noConfusion hq
      | vInt n =>
        have hn : n = 0 := by
          simpa [PyVal.truthy] using htv
        subst hn
        have hq0 : q = ⟨0, 0⟩ := by
          rw [show (PyVal.vInt 0).pyStr = "0" from by decide] at hq
          rw [show parseDecimal "0" = .ok ⟨0, 0⟩ from by decide] at hq
          exact (Except.ok.inj hq).symm
        have hcs : googleCostStr data = "0" := by
          simp [googleCostStr, hm, hc, pyOr, pyTruthy, htv, PyVal.truthy, pyStrOf,
            PyVal.pyStr]
        unfold googleNormalize
        rw [hcs]
        rw [show parseDecimal "0" = .ok ⟨0, 0⟩ from by decide]
        simp [Except.toOption, postInit_amount, googleAmountOf, googleTxRecord_amount, hm, hq0]

/-- A Google record reporting spend as `costMicros = 1500000`. -/
def gMicros : GoogleRaw := { cost_micros := some (.vStr "1500000") }

/-- Witness for the amended C8: `costMicros = 1500000` normalizes to
amount `1.5` (Python `Decimal("1500000") / Decimal("1000000")`), the
claimed `1.50` value. -/
theorem c8_amended_micros_scaling_witness :
    ((googleNormalize "u-1" 0 gMicros).toOption.map (fun tx => tx.amount) =
      some ((⟨1500000, 0⟩ : Dec).div10pow 6)) ∧
    (⟨1500000, 0⟩ : Dec).div10pow 6 = ⟨15, 1⟩ :=
  ⟨c8_amended_micros_scaling.1 "u-1" 0 gMicros (.vStr "1500000") ⟨1500000, 0⟩
    rfl (by decide) (by decide), by decide⟩

/-- A well-formed USD Shopify order with the given id. -/
def usdOrder (oid : String) : ShopifyRaw :=
  { id := some (.vStr oid), total_price := some (.vStr "10.00") }

/-- A malformed Shopify order: its total does not parse as a decimal. -/
def badOrder : ShopifyRaw :=
  { id := some (.vStr "ord_3"), total_price := some (.vStr "abc") }

/-- The five-record batch of the claim, record #3 malformed. -/
def batch5 : List ShopifyRaw :=
  [usdOrder "o1", usdOrder "o2", badOrder, usdOrder "o4", usdOrder "o5"]

/-- C3 counterexample: on a batch of 5 records where record #3 is
malformed, `normalize_batch` aborts — it returns no list of transactions
at all — even though 4 of the 5 records normalize fine individually; the
claimed outcome of 4 successes plus exactly one recorded error never
materializes at this interface. -/
theorem c3_counterexample :
    (shopifyNormalizeBatch "u-1" 0 batch5).toOption = none ∧
    (batch5.filterMap (fun r => (shopifyNormalize "u-1" 0 r).toOption)).length = 4 := by
  decide

/-- C3 as amended: `normalize_batch` is a bare list comprehension with no
per-item error handling — the first record whose `normalize` raises aborts
the whole batch with exactly that record's error and yields no
transactions; per-record error isolation lives in the orchestrator's sync
loop, not in the adapter. -/
theorem c3_amended_batch_aborts :
    ∀ (uuid : String) (now : Nat) (pre : List ShopifyRaw) (bad : ShopifyRaw)
      (post : List ShopifyRaw) (e : String),
      (pre.all fun r => (shopifyNormalize uuid now r).toOption.isSome) = true →
      shopifyNormalize uuid now bad = .error e →
      shopifyNormalizeBatch uuid now (pre ++ bad :: post) = .error e := by
  intro uuid now pre bad post e
  induction pre with
  | nil =>
    intro _ hbad
    simp only [List.nil_append]
    unfold shopifyNormalizeBatch
    rw [hbad]
  | cons head tail ih =>
    intro hpre hbad
    rw [List.all_cons, Bool.and_eq_true] at hpre
    obtain ⟨h1, h2⟩ := hpre
    cases hn : shopifyNormalize uuid now head with
    | error e2 => rw [hn] at h1; simp [Except.toOption] at h1
    | ok tx =>
      simp only [List.cons_append]
      unfold shopifyNormalizeBatch
      rw [hn, ih h2 hbad]

/-- Witness for the amended C3 on a concrete three-record batch. -/
theorem c3_amended_batch_aborts_witness :
    shopifyNormalizeBatch "u-1" 0 [usdOrder "o1", badOrder, usdOrder "o4"] =
      .error "InvalidOperation: abc" :=
  c3_amended_batch_aborts "u-1" 0 [usdOrder "o1"] badOrder [usdOrder "o4"]
    "InvalidOperation: abc" (by decide) (by decide)

/-- C7: for a stored credential that is expired (cache-wise and row-wise)
and carries a refresh token, a failing refresh — whether it raises or
yields no new credential — makes `get_token` return the original expired
credential rather than raising; the failure is swallowed at the store
boundary. -/
theorem c7_refresh_failure_returns_original :
    ∀ (now : Int) (refresher : Except String (Option TokenData)) (st : TMState)
      (user platform : String) (db : DbState) (uuid : String) (row : TokenData),
      (∀ td, st.cache.lookup (user, platform) = some td → td.is_expired now = true) →
      st.db = some db →
      db.users.lookup user = some uuid →
      db.tokens.lookup (uuid, platform) = some row →
      row.is_expired now = true →
      strTruthy row.refresh_token = true →
      ((∃ e, refresher = .error e) ∨ refresher = .ok none) →
      (get_token now refresher st user platform).1 = some row := by
  intro now refresher st user platform db uuid row hcache hdb hu ht hexp hrt hfail
  unfold get_token
  cases hc : st.cache.lookup (user, platform) with
  | none =>
    dsimp only
    rw [hdb]
    dsimp only
    rw [hu]
    dsimp only
    rw [ht]
    dsimp only
    rw [hexp, hrt]
    simp only [Bool.and_true, Bool.true_and, if_true]
    rcases hfail with ⟨e, rfl⟩ | rfl <;> rfl
  | some td =>
    dsimp only
    rw [hcache td hc]
    simp only [Bool.not_true, Bool.false_eq_true, if_false]
    rw [hdb]
    dsimp only
    rw [hu]
    dsimp only
    rw [ht]
    dsimp only
    rw [hexp, hrt]
    simp only [Bool.and_true, Bool.true_and, if_true]
    rcases hfail with ⟨e, rfl⟩ | rfl <;> rfl

/-- An expired stored credential with a refresh token. -/
def expiredTok : TokenData :=
  { access_token := "at", refresh_token := some "rt", expires_at := some 100 }

/-- A token-manager state holding `expiredTok` durably for
`("u1", "shopify")`. -/
def stExpired : TMState :=
  { cache := []
    db := some { users := [("u1", "uuid1")]
                 tokens := [(("uuid1", "shopify"), expiredTok)] } }

/-- Witness for C7: at `now = 1000` the stored credential is expired; a
refresh that yields nothing hands back the original credential. -/
theorem c7_refresh_failure_returns_original_witness :
    (get_token 1000 (.ok none) stExpired "u1" "shopify").1 = some expiredTok :=
  c7_refresh_failure_returns_original 1000 (.ok none) stExpired "u1" "shopify"
    _ "uuid1" expiredTok
    (by intro td h; simp [stExpired, List.lookup] at h)
    rfl (by decide) (by decide) (by decide) (by decide) (Or.inr rfl)

/-- A Shopify order whose total is negative while its status says paid. -/
def negOrder : ShopifyRaw :=
  { id := some (.vStr "neg"), total_price := some (.vStr "-5.00") }

/-- What `ShopifyNormalizer.normalize("u-1", now 0)` returns for
`negOrder`: a transaction `validate()` would reject. -/
def negOrderTx : NormalizedTransaction :=
  { id := "u-1"
    platform := "shopify"
    platform_id := "neg"
    type := .order
    amount := ⟨-500, 2⟩
    currency := "USD"
    timestamp := .nowAt 0
    amount_usd := some ⟨-500, 2⟩ }

/-- C10: `ShopifyNormalizer.normalize` never rejects a record for missing
source fields — a missing total defaults the amount to `Decimal("0")`, a
missing currency defaults to `"USD"` (auto-populating
`amount_usd = amount`), and a missing `created_at`/`processed_at` defaults
the timestamp to the wall clock (`datetime.now()`), making the result
depend on the call time; and the sync path runs `normalize` and goes
straight to the insert without ever invoking
`NormalizedTransaction.validate()` — shown by a record whose normalized
transaction `validate()` rejects, which the per-order sync step still
passes through to `_insert_transaction`. -/
theorem c10_lenient_defaults_no_validate :
    ∀ (uuid : String) (now : Nat) (d : ShopifyRaw),
      d.total_price = none → d.amount = none → d.currency = none →
      d.created_at = none → d.processed_at = none →
      (∀ tx, shopifyNormalize uuid now d = .ok tx →
        tx.amount = ⟨0, 0⟩ ∧ tx.currency = "USD" ∧ tx.amount_usd = some ⟨0, 0⟩ ∧
        tx.timestamp = .nowAt now) ∧
      (d.line_items = [] → ∃ tx, shopifyNormalize uuid now d = .ok tx) ∧
      (NormalizedTransaction.validate negOrderTx =
        .error "Amount must be non-negative for type order" ∧
       shopifyNormalize "u-1" 0 negOrder = .ok negOrderTx) ∧
      (∀ c : Collab, shopifyOrderStep c negOrder =
        .error "'NormalizedTransaction' object has no attribute 'occurred_at'") := by
  intro uuid now d h1 h2 h3 h4 h5
  have hstr : shopifyAmountStr d = "0" := by
    simp [shopifyAmountStr, h1, h2, pyOr, pyTruthy, pyStrOf, PyVal.pyStr]
  refine ⟨?_, ?_, ⟨by decide, by decide⟩, ?_⟩
  · intro tx h
    obtain ⟨a, cpu, hp, rfl⟩ := shopifyNormalize_ok h
    rw [hstr] at hp
    rw [show parseDecimal "0" = .ok ⟨0, 0⟩ from by decide] at hp
    obtain rfl : (⟨0, 0⟩ : Dec) = a := Except.ok.inj hp
    have hamt : shopifyAmountOf d ⟨0, 0⟩ = ⟨0, 0⟩ := by
      simp [shopifyAmountOf, Dec.isNeg]
    refine ⟨?_, ?_, ?_, ?_⟩
    · rw [postInit_amount, shopifyTxRecord_amount, hamt]
    · rw [postInit_currency, shopifyTxRecord_currency, h3]
      rfl
    · rw [postInit_amount_usd_of_none _ _ rfl, shopifyTxRecord_currency,
        shopifyTxRecord_amount, h3, hamt]
      decide
    · rw [postInit_timestamp, shopifyTxRecord_timestamp]
      simp [shopifyTimestamp, h4, h5, strOr, strTruthy]
  · intro hli
    have hok : shopifyNormalize uuid now d =
        .ok (postInit uuid
          (shopifyTxRecord uuid now d (shopifyAmountOf d ⟨0, 0⟩) none)) := by
      unfold shopifyNormalize
      rw [hstr, show parseDecimal "0" = .ok ⟨0, 0⟩ from by decide]
      dsimp only
      rw [hli]
      rfl
    exact ⟨_, hok⟩
  · intro c
    unfold shopifyOrderStep shopifyNormalize
    rw [show shopifyAmountStr negOrder = "-5.00" from by decide,
      show parseDecimal "-5.00" = .ok ⟨-500, 2⟩ from by decide]
    rfl

/-- What normalizing the all-fields-missing record at `now = 42` yields. -/
def emptyDefaultsTx : NormalizedTransaction :=
  { id := "u-1"
    platform := "shopify"
    platform_id := ""
    type := .order
    amount := ⟨0, 0⟩
    currency := "USD"
    timestamp := .nowAt 42
    amount_usd := some ⟨0, 0⟩ }

/-- Witness for C10 at the all-fields-missing record, `now = 42`. -/
theorem c10_lenient_defaults_no_validate_witness :
    shopifyNormalize "u-1" 42 ({} : ShopifyRaw) = .ok emptyDefaultsTx ∧
    emptyDefaultsTx.amount = ⟨0, 0⟩ ∧ emptyDefaultsTx.currency = "USD" ∧
    emptyDefaultsTx.amount_usd = some ⟨0, 0⟩ ∧
    emptyDefaultsTx.timestamp = .nowAt 42 :=
  ⟨by decide,
   (c10_lenient_defaults_no_validate "u-1" 42 ({} : ShopifyRaw)
     rfl rfl rfl rfl rfl).1 emptyDefaultsTx (by decide)⟩

/-- Every per-order sync step fails: either normalization raises, or the
insert raises its `occurred_at` `AttributeError`. -/
theorem shopifyOrderStep_isErr (c : Collab) (od : ShopifyRaw) :
    ∃ e, shopifyOrderStep c od = .error e := by
  unfold shopifyOrderStep
  cases hn : shopifyNormalize c.uuid c.now od with
  | error e => exact ⟨e, rfl⟩
  | ok tx => exact ⟨_, rfl⟩

theorem shopifyOrderFoldStep_trans (c : Collab) (acc : SyncReport) (od : ShopifyRaw) :
    (shopifyOrderFoldStep c acc od).transactions_synced = acc.transactions_synced := by
  unfold shopifyOrderFoldStep
  obtain ⟨e, he⟩ := shopifyOrderStep_isErr c od
  rw [he]

theorem productFoldStep_trans (c : Collab) (acc : SyncReport) (pd : ProductRaw) :
    (productFoldStep c acc pd).transactions_synced = acc.transactions_synced := by
  unfold productFoldStep
  cases c.upsertProduct pd <;> rfl

theorem foldl_preserves_trans {α : Type} (f : SyncReport → α → SyncReport)
    (hf : ∀ acc x, (f acc x).transactions_synced = acc.transactions_synced) :
    ∀ (l : List α) (acc : SyncReport),
      (l.foldl f acc).transactions_synced = acc.transactions_synced
  | [], _ => rfl
  | x :: xs, acc => by
    rw [List.foldl_cons, foldl_preserves_trans f hf xs (f acc x), hf]

/-- The raw order of the idempotence scenario. -/
def ord1 : ShopifyRaw :=
  { id := some (.vStr "ord_1")
    total_price := some (.vStr "49.99")
    currency := some "USD"
    created_at := some "2024-01-15T10:30:00Z"
    line_items := [{ sku := some (.vStr "ABC"), quantity := some 2 }] }

/-- Collaborators for a Shopify sync whose fetch returns exactly `ord1`. -/
def c2Collab : Collab :=
  { ensureUser := .ok "uuid-1"
    fetchOrders := .ok [ord1]
    fetchProducts := .ok []
    upsertProduct := fun _ => .ok ()
    fetchMetaAdAccounts := .ok []
    fetchMetaCampaigns := fun _ => .ok []
    upsertMetaCampaign := fun _ => .ok ()
    fetchGoogleCustomers := .ok []
    fetchGoogleCampaigns := fun _ => .ok []
    upsertGoogleCampaign := fun _ => .ok ()
    uuid := "u-1"
    now := 0 }

/-- C2 (code bug): `_insert_transaction` evaluates
`transaction.occurred_at`, an attribute `NormalizedTransaction` does not
have (its field is `timestamp`), so every insert raises `AttributeError`:
syncing a well-formed order yields `transactionsSynced = 0` with the
`AttributeError` recorded as the order's error — on the first run as much
as on any re-run — and in general every Shopify sync report has
`transactionsSynced = 0`.  The claimed behaviour (first run inserts, the
`(user, platform, platformId)` upsert makes the second run a no-op) is
unreachable; moreover the counter is incremented per insert *call*, not
per inserted row, so even with the attribute fixed a second identical run
would report the full count again rather than 0. -/
theorem c2_occurred_at_attribute_error :
    (syncPlatform c2Collab "shopify" =
      { platform := "shopify", transactions_synced := 0, products_synced := 0,
        campaigns_synced := 0,
        errors := ["Order ord_1: 'NormalizedTransaction' object has no attribute 'occurred_at'"] }) ∧
    (∀ (c : Collab) (r : SyncReport), syncShopify c = .ok r →
      r.transactions_synced = 0) := by
  constructor
  · decide
  · intro c r h
    unfold syncShopify at h
    cases hu : c.ensureUser with
    | error e => rw [hu] at h; exact absurd h (by simp)
    | ok u =>
      rw [hu] at h
      dsimp only at h
      obtain h2 := Except.ok.inj h
      rw [← h2]
      have hr1 : ∀ r1 : SyncReport,
          (match c.fetchProducts with
            | .error e => { r1 with errors := r1.errors ++ ["Failed to fetch products: " ++ e] }
            | .ok products => products.foldl (productFoldStep c) r1).transactions_synced =
            r1.transactions_synced := by
        intro r1
        cases c.fetchProducts with
        | error e => rfl
        | ok products => exact foldl_preserves_trans _ (productFoldStep_trans c) products r1
      rw [hr1]
      cases c.fetchOrders with
      | error e => rfl
      | ok orders =>
        exact foldl_preserves_trans _ (shopifyOrderFoldStep_trans c) orders (emptyReport "shopify")

/-- The report produced by the failing-input run of C2. -/
def c2Report : SyncReport :=
  { platform := "shopify", transactions_synced := 0, products_synced := 0,
    campaigns_synced := 0,
    errors := ["Order ord_1: 'NormalizedTransaction' object has no attribute 'occurred_at'"] }

/-- Witness for C2's general conjunct at the concrete collaborators. -/
theorem c2_occurred_at_attribute_error_witness :
    syncShopify c2Collab = .ok c2Report ∧ c2Report.transactions_synced = 0 :=
  ⟨by decide, c2_occurred_at_attribute_error.2 c2Collab c2Report (by decide)⟩

theorem syncShopify_userErr {c : Collab} {e : String}
    (h : c.ensureUser = .error e) : syncShopify c = .error e := by
  unfold syncShopify; rw [h]

theorem syncMeta_userErr {c : Collab} {e : String}
    (h : c.ensureUser = .error e) : syncMeta c = .error e := by
  unfold syncMeta; rw [h]

theorem syncGoogle_userErr {c : Collab} {e : String}
    (h : c.ensureUser = .error e) : syncGoogle c = .error e := by
  unfold syncGoogle; rw [h]

theorem syncShopify_fetchErr {c : Collab} {u e1 e2 : String}
    (hu : c.ensureUser = .ok u) (h1 : c.fetchOrders = .error e1)
    (h2 : c.fetchProducts = .error e2) :
    syncShopify c = .ok
      { platform := "shopify", transactions_synced := 0, products_synced := 0,
        campaigns_synced := 0,
        errors := ["Failed to fetch orders: " ++ e1,
                   "Failed to fetch products: " ++ e2] } := by
  unfold syncShopify
  rw [hu, h1, h2]
  rfl

theorem syncMeta_fetchErr {c : Collab} {u e3 : String}
    (hu : c.ensureUser = .ok u) (h3 : c.fetchMetaAdAccounts = .error e3) :
    syncMeta c = .ok
      { platform := "meta", transactions_synced := 0, products_synced := 0,
        campaigns_synced := 0,
        errors := ["Failed to fetch ad accounts: " ++ e3] } := by
  unfold syncMeta
  rw [hu, h3]
  rfl

theorem syncGoogle_fetchErr {c : Collab} {u e4 : String}
    (hu : c.ensureUser = .ok u) (h4 : c.fetchGoogleCustomers = .error e4) :
    syncGoogle c = .ok
      { platform := "google", transactions_synced := 0, products_synced := 0,
        campaigns_synced := 0,
        errors := ["Failed to fetch customers: " ++ e4] } := by
  unfold syncGoogle
  rw [hu, h4]
  rfl

/-- C5: `sync_platform` is a total function into the fixed report shape —
in this embedding it cannot propagate an exception by construction, every
failure landing in the error list — and when every collaborator fails
(user resolution raises, or every platform fetch raises) the returned
report has zero counts in all three categories and a non-empty error list,
for every platform string including unsupported ones. -/
theorem c5_sync_platform_always_reports :
    ∀ (c : Collab) (p : String),
      ((∃ e, c.ensureUser = .error e) ∨
        ((∃ e, c.fetchOrders = .error e) ∧ (∃ e, c.fetchProducts = .error e) ∧
         (∃ e, c.fetchMetaAdAccounts = .error e) ∧
         (∃ e, c.fetchGoogleCustomers = .error e))) →
      (syncPlatform c p).transactions_synced = 0 ∧
      (syncPlatform c p).products_synced = 0 ∧
      (syncPlatform c p).campaigns_synced = 0 ∧
      (syncPlatform c p).errors ≠ [] := by
  intro c p hfail
  unfold syncPlatform
  dsimp only
  by_cases hs : pyLower p = "shopify"
  · rw [if_pos hs]
    rcases hfail with ⟨e, he⟩ | ⟨⟨e1, he1⟩, ⟨e2, he2⟩, _, _⟩
    · rw [syncShopify_userErr he]
      exact ⟨rfl, rfl, rfl, by simp⟩
    · cases hu : c.ensureUser with
      | error e => rw [syncShopify_userErr hu]; exact ⟨rfl, rfl, rfl, by simp⟩
      | ok u => rw [syncShopify_fetchErr hu he1 he2]; exact ⟨rfl, rfl, rfl, by simp⟩
  · rw [if_neg hs]
    by_cases hm : pyLower p = "meta"
    · rw [if_pos hm]
      rcases hfail with ⟨e, he⟩ | ⟨_, _, ⟨e3, he3⟩, _⟩
      · rw [syncMeta_userErr he]
        exact ⟨rfl, rfl, rfl, by simp⟩
      · cases hu : c.ensureUser with
        | error e => rw [syncMeta_userErr hu]; exact ⟨rfl, rfl, rfl, by simp⟩
        | ok u => rw [syncMeta_fetchErr hu he3]; exact ⟨rfl, rfl, rfl, by simp⟩
    · rw [if_neg hm]
      by_cases hg : pyLower p = "google"
      · rw [if_pos hg]
        rcases hfail with ⟨e, he⟩ | ⟨_, _, _, ⟨e4, he4⟩⟩
        · rw [syncGoogle_userErr he]
          exact ⟨rfl, rfl, rfl, by simp⟩
        · cases hu : c.ensureUser with
          | error e => rw [syncGoogle_userErr hu]; exact ⟨rfl, rfl, rfl, by simp⟩
          | ok u => rw [syncGoogle_fetchErr hu he4]; exact ⟨rfl, rfl, rfl, by simp⟩
      · rw [if_neg hg]
        exact ⟨rfl, rfl, rfl, by simp⟩

/-- Collaborators for which everything fails. -/
def c5Collab : Collab :=
  { ensureUser := .error "database unreachable"
    fetchOrders := .error "platform unreachable"
    fetchProducts := .error "platform unreachable"
    upsertProduct := fun _ => .error "db down"
    fetchMetaAdAccounts := .error "platform unreachable"
    fetchMetaCampaigns := fun _ => .error "platform unreachable"
    upsertMetaCampaign := fun _ => .error "db down"
    fetchGoogleCustomers := .error "platform unreachable"
    fetchGoogleCampaigns := fun _ => .error "platform unreachable"
    upsertGoogleCampaign := fun _ => .error "db down"
    uuid := "u-1"
    now := 0 }

/-- Witness for C5: everything failing still yields a zero-count report
with a non-empty error list. -/
theorem c5_sync_platform_always_reports_witness :
    c5Collab.ensureUser = .error "database unreachable" ∧
    (syncPlatform c5Collab "shopify").transactions_synced = 0 ∧
    (syncPlatform c5Collab "shopify").products_synced = 0 ∧
    (syncPlatform c5Collab "shopify").campaigns_synced = 0 ∧
    (syncPlatform c5Collab "shopify").errors ≠ [] :=
  ⟨rfl, c5_sync_platform_always_reports c5Collab "shopify"
    (Or.inl ⟨"database unreachable", rfl⟩)⟩
